import Mathlib

set_option maxRecDepth 4000

/-
  Shallow embedding of the consumption-counter core (src/src/consumption.c,
  src/include/consumption.h).

  Modelling conventions:
  * C `uint32_t` values are modelled as `Nat`.  Where the C code can actually
    wrap around (the lifetime counter `total_events++` and the unsigned
    subtractions `now - last_sync` / `now - last_aggregation`), the wraparound
    is modelled explicitly with `% 2 ^ 32` (`U32MOD`, `wsub`).  The remaining
    counters (`buffer_count`, `buffer_head`, `buffer_tail`) stay below the
    capacity bound of 10000 in every state reachable from a successful
    initialization, so plain `Nat` arithmetic coincides with `uint32_t` there.
  * The platform collaborators (clock, persistent blob store, network sink,
    logger) are opaque externals in the C code; here every call site receives
    the collaborator's answer as an explicit parameter (a timestamp `Nat`, a
    `Bool` send result, an `Option State` restore result), and the outputs a
    function hands to a collaborator are returned as result fields
    (`sent` carries the payload given to the network sink, `persisted` records
    that a storage write was requested).
  * The ring buffer malloc'd at init has indeterminate contents in C; the
    model fills it with `default` events.  Cells are only ever read after
    having been written in all behaviours the theorems below talk about.
-/

namespace Consumption

/-- Modulus of C `uint32_t` arithmetic. -/
def U32MOD : Nat := 2 ^ 32

/-- Wrap-around subtraction `a - b` on `uint32_t` operands, as in the C
expressions `now - g_state.last_sync` and `period_end - period_start`. -/
def wsub (a b : Nat) : Nat := (a % U32MOD + U32MOD - b % U32MOD) % U32MOD

/-- Mirror of `consumption_error_t` (consumption.h). -/
inductive Error where
  | SUCCESS
  | INVALID_CONFIG
  | STORAGE_FULL
  | NETWORK_UNAVAILABLE
  | API_ERROR
  | MEMORY_ERROR
  | INVALID_PARAMETER
  deriving DecidableEq

/-- Mirror of `consumption_config_t` (consumption.h). -/
structure Config where
  machine_id : Nat
  enable_external_api : Bool
  ring_buffer_size : Nat
  aggregation_interval : Nat
  api_endpoint : String
  api_key : String
  max_retry_attempts : Nat
  deriving DecidableEq

/-- Mirror of `consumption_event_t` (consumption.h). -/
structure Event where
  timestamp : Nat
  machine_id : Nat
  product_id : Nat
  deriving DecidableEq, Inhabited

/-- Mirror of `consumption_aggregate_t` (consumption.h); the 256-slot count
array is a function from slot index to count. -/
structure Aggregate where
  machine_id : Nat
  period_start : Nat
  period_end : Nat
  total_events : Nat
  product_counts : Nat → Nat

/-- Mirror of `consumption_state_t` (consumption.c); the malloc'd event array
is a `List Event` of length `config.ring_buffer_size`. -/
structure State where
  initialized : Bool
  config : Config
  total_events : Nat
  buffer_head : Nat
  buffer_tail : Nat
  buffer_count : Nat
  event_buffer : List Event
  last_aggregation : Nat
  last_sync : Nat
  sync_in_progress : Bool
  deriving DecidableEq

/-- Mirror of `validate_config` (consumption.c lines 95-101). -/
def validate_config (c : Config) : Bool :=
  !(c.machine_id = 0) && !(c.ring_buffer_size = 0) && !(c.ring_buffer_size > 10000)

/-- Mirror of `init_default_config` (consumption.c lines 106-113): `memset 0`
then the listed field assignments. -/
def init_default_config : Config :=
  { machine_id := 0
    enable_external_api := false
    ring_buffer_size := 1000
    aggregation_interval := 3600
    api_endpoint := "https://api.example.com/consumption"
    api_key := ""
    max_retry_attempts := 3 }

/-- The all-zero `g_state` (`static consumption_state_t g_state = \x7b0\x7d`). -/
def zeroState : State :=
  { initialized := false
    config := { machine_id := 0, enable_external_api := false, ring_buffer_size := 0,
                aggregation_interval := 0, api_endpoint := "", api_key := "",
                max_retry_attempts := 0 }
    total_events := 0
    buffer_head := 0
    buffer_tail := 0
    buffer_count := 0
    event_buffer := []
    last_aggregation := 0
    last_sync := 0
    sync_in_progress := false }

/-- Mirror of `add_event_to_buffer` (consumption.c lines 132-144).  The C
function unconditionally returns `CONSUMPTION_SUCCESS`; the pair keeps that
return value explicit because the caller checks it. -/
def add_event_to_buffer (s : State) (e : Event) : State × Error :=
  let cap := s.config.ring_buffer_size
  let s1 :=
    if s.buffer_count ≥ cap then
      { s with buffer_tail := (s.buffer_tail + 1) % cap,
               buffer_count := s.buffer_count - 1 }
    else s
  ({ s1 with event_buffer := s1.event_buffer.set s1.buffer_head e,
             buffer_head := (s1.buffer_head + 1) % cap,
             buffer_count := s1.buffer_count + 1 },
   Error.SUCCESS)

/-- The sequence of buffer indices the C loop `index = (index + 1) % cap`
visits, starting at `t`, for `n` iterations. -/
def ringIndices (cap : Nat) : Nat → Nat → List Nat
  | _, 0 => []
  | t, n + 1 => t :: ringIndices cap ((t + 1) % cap) n

/-- The currently buffered events in oldest-to-newest order: the cells the
aggregation loop of `aggregate_events` reads, in the order it reads them
(`index` starts at `buffer_tail` and advances modulo the capacity,
`buffer_count` times). -/
def bufferedEvents (s : State) : List Event :=
  (ringIndices s.config.ring_buffer_size s.buffer_tail s.buffer_count).map
    (fun i => s.event_buffer.getD i default)

/-- The window test `event->timestamp >= start_time && event->timestamp <= end_time`
of consumption.c line 159. -/
def inWindow (start_time end_time : Nat) (e : Event) : Bool :=
  decide (start_time ≤ e.timestamp) && decide (e.timestamp ≤ end_time)

/-- One iteration of the loop body of `aggregate_events`
(consumption.c lines 157-166). -/
def agg_step (start_time end_time : Nat) (a : Aggregate) (e : Event) : Aggregate :=
  if inWindow start_time end_time e then
    { a with total_events := a.total_events + 1,
             product_counts :=
               if e.product_id < 256 then
                 fun j => if j = e.product_id then a.product_counts j + 1 else a.product_counts j
               else a.product_counts }
  else a

/-- Mirror of `aggregate_events` (consumption.c lines 149-167): zero the
aggregate, stamp machine id and window bounds, then fold the loop body over
the buffered events in the order the C loop reads them.  The C function
mutates only its out-parameter, never `g_state`, hence the pure type. -/
def aggregate_events (s : State) (start_time end_time : Nat) : Aggregate :=
  (bufferedEvents s).foldl (agg_step start_time end_time)
    { machine_id := s.config.machine_id
      period_start := start_time
      period_end := end_time
      total_events := 0
      product_counts := fun _ => 0 }

/-- One entry of the products object: `snprintf("\"%d\":%u", i, count)`. -/
def prodItem (counts : Nat → Nat) (i : Nat) : String :=
  "\"" ++ toString i ++ "\":" ++ toString (counts i)

/-- One iteration of the product-serialization loop of `sync_to_api`
(consumption.c lines 209-215) viewed on the untruncated output; the `Bool`
component is the `first` flag.  The bounded writes into `json_buffer` are
modelled separately by `prodBuildStep`. -/
def prodStep (counts : Nat → Nat) (p : String × Bool) (i : Nat) : String × Bool :=
  if counts i > 0 then
    ((if p.2 then p.1 else p.1 ++ ",") ++ prodItem counts i, false)
  else p

/-- The untruncated products fragment of the C loop `for (i = 1; i < 256; i++)`:
the concatenation of the loop's `snprintf` outputs, i.e. what the loop adds
to the `len` accumulator (`snprintf` returns the full length even when it
truncates). -/
def productsJson (counts : Nat → Nat) : String :=
  ((List.range' 1 255).foldl (prodStep counts) ("", true)).1

/-- Output of the first `snprintf` of `sync_to_api` (consumption.c lines
202-204): the header with the four literal fields. -/
def jsonHeader (a : Aggregate) : String :=
  "\x7b\"machine_id\":" ++ toString a.machine_id ++
    ",\"period_start\":" ++ toString a.period_start ++
    ",\"period_end\":" ++ toString a.period_end ++
    ",\"total_events\":" ++ toString a.total_events

/-- The untruncated JSON serialization assembled by `sync_to_api`
(consumption.c lines 200-216): the string whose total length the C `len`
variable accumulates.  What of it actually reaches the 1024-byte
`json_buffer` is modelled by `buildPayload`; the two coincide exactly when
this string is shorter than the buffer (`buildPayload_fits`). -/
def jsonPayload (a : Aggregate) : String :=
  jsonHeader a ++ ",\"products\":\x7b" ++ productsJson a.product_counts ++ "\x7d\x7d"

/-- Size of the C stack buffer `char json_buffer[1024]` (consumption.c
line 201). -/
def BUFSZ : Nat := 1024

/-- The serialization buffer paired with the C `len` accumulator: `buf` holds
the characters actually stored in `json_buffer`, `len` the sum of the
`snprintf` return values, i.e. the untruncated length; `len` is what the C
code hands to the network sink as the payload size. -/
structure SnBuf where
  buf : String
  len : Nat
  deriving DecidableEq

/-- One `len += snprintf(json_buffer + len, sizeof(json_buffer) - len, ...)`
call: with `avail = 1024 - len` bytes remaining, `snprintf` stores at most
`avail - 1` characters of the formatted piece (plus the terminator) and
returns the piece's full length, which is added to `len`.  When `len`
exceeds 1024 the C `size_t` subtraction underflows and the write lands out
of bounds (undefined behaviour); the model clamps `avail` to 0 and writes
nothing there — the theorems below that involve a truncated payload stay in
the region where every write is well defined (`len ≤ 1024` at each call). -/
def snWrite (b : SnBuf) (piece : String) : SnBuf :=
  let avail := BUFSZ - b.len
  let written : String := if avail = 0 then "" else ⟨piece.data.take (avail - 1)⟩
  { buf := b.buf ++ written, len := b.len + piece.length }

/-- One iteration of the product loop writing into the buffer
(consumption.c lines 209-215): a separate `snprintf` call for the comma and
for the entry, exactly as in the C; the `Bool` component is the `first`
flag. -/
def prodBuildStep (counts : Nat → Nat) (p : SnBuf × Bool) (i : Nat) : SnBuf × Bool :=
  if counts i > 0 then
    (snWrite (if p.2 then p.1 else snWrite p.1 ",") (prodItem counts i), false)
  else p

/-- The full `snprintf` sequence of `sync_to_api` (consumption.c lines
200-216) into the 1024-byte buffer: the header, the products opener, the
per-category loop, and the closing braces.  `.buf` is what `json_buffer`
holds afterwards, `.len` the length handed to the network sink. -/
def buildPayload (a : Aggregate) : SnBuf :=
  let b0 := snWrite { buf := "", len := 0 } (jsonHeader a)
  let b1 := snWrite b0 ",\"products\":\x7b"
  let b2 := (List.range' 1 255).foldl (prodBuildStep a.product_counts) (b1, true)
  snWrite b2.1 "\x7d\x7d"

/-- Result of a sync attempt: the updated module state, the returned error
code, the payload handed to the network sink (if any) as the pair of the
`json_buffer` contents and the `len` argument of the send call, and whether
a persistent-storage write was requested. -/
structure SyncResult where
  state : State
  ret : Error
  sent : Option (String × Nat)
  persisted : Bool
  deriving DecidableEq

/-- Mirror of `sync_to_api` (consumption.c lines 172-236).  `now` is the
clock's answer to the `consumption_platform_get_timestamp()` call at line 183
and `sendOk` is the network sink's boolean reply. -/
def sync_to_api (s : State) (now : Nat) (sendOk : Bool) : SyncResult :=
  if !s.config.enable_external_api then
    { state := s, ret := .SUCCESS, sent := none, persisted := false }
  else if s.sync_in_progress then
    { state := s, ret := .API_ERROR, sent := none, persisted := false }
  else
    let s1 := { s with sync_in_progress := true }
    let period_start := s1.last_aggregation
    let period_end := now
    if wsub period_end period_start < s1.config.aggregation_interval then
      { state := { s1 with sync_in_progress := false }, ret := .SUCCESS,
        sent := none, persisted := false }
    else
      let aggr := aggregate_events s1 period_start period_end
      if aggr.total_events = 0 then
        { state := { s1 with sync_in_progress := false }, ret := .SUCCESS,
          sent := none, persisted := false }
      else
        let payload := buildPayload aggr
        if sendOk then
          let s2 := { s1 with sync_in_progress := false, last_sync := now,
                              last_aggregation := period_end }
          { state := s2, ret := .SUCCESS, sent := some (payload.buf, payload.len),
            persisted := true }
        else
          { state := { s1 with sync_in_progress := false }, ret := .API_ERROR,
            sent := some (payload.buf, payload.len), persisted := false }

/-- Result of a record-event call; `syncAttempted` records whether the
opportunistic `sync_to_api()` call at consumption.c line 311 was reached. -/
structure DispenseResult where
  state : State
  ret : Error
  syncAttempted : Bool
  sent : Option (String × Nat)
  persisted : Bool
  deriving DecidableEq

/-- Mirror of `consumption_on_dispense` (consumption.c lines 280-316).
`eventNow` is the clock value stamped on the event (line 294), `gateNow` the
clock value used by the `now - last_sync` gate (line 308), and `syncNow` the
clock value `sync_to_api` itself obtains (line 183); `sendOk` is the network
sink's reply should a send happen. -/
def consumption_on_dispense (s : State) (machine_id product_id : Nat)
    (eventNow gateNow syncNow : Nat) (sendOk : Bool) : DispenseResult :=
  if !s.initialized then
    { state := s, ret := .INVALID_CONFIG, syncAttempted := false,
      sent := none, persisted := false }
  else if machine_id ≠ s.config.machine_id then
    { state := s, ret := .INVALID_PARAMETER, syncAttempted := false,
      sent := none, persisted := false }
  else if product_id = 0 then
    { state := s, ret := .INVALID_PARAMETER, syncAttempted := false,
      sent := none, persisted := false }
  else
    let ev : Event := { timestamp := eventNow, machine_id := machine_id,
                        product_id := product_id }
    let ar := add_event_to_buffer s ev
    if ar.2 ≠ .SUCCESS then
      { state := ar.1, ret := ar.2, syncAttempted := false,
        sent := none, persisted := false }
    else
      let s2 := { ar.1 with total_events := (ar.1.total_events + 1) % U32MOD }
      if s2.config.enable_external_api then
        if wsub gateNow s2.last_sync ≥ s2.config.aggregation_interval then
          let sr := sync_to_api s2 syncNow sendOk
          { state := sr.state, ret := .SUCCESS, syncAttempted := true,
            sent := sr.sent, persisted := sr.persisted }
        else
          { state := s2, ret := .SUCCESS, syncAttempted := false,
            sent := none, persisted := false }
      else
        { state := s2, ret := .SUCCESS, syncAttempted := false,
          sent := none, persisted := false }

/-- Mirror of `consumption_force_sync` (consumption.c lines 372-378). -/
def consumption_force_sync (s : State) (now : Nat) (sendOk : Bool) : SyncResult :=
  if !s.initialized then
    { state := s, ret := .INVALID_CONFIG, sent := none, persisted := false }
  else
    sync_to_api s now sendOk

/-- The three values `consumption_get_stats` writes through its out
pointers. -/
structure Stats where
  total_events : Nat
  buffered_events : Nat
  last_sync : Nat
  deriving DecidableEq

/-- Mirror of `consumption_get_stats` (consumption.c lines 358-370): before a
successful init it returns `INVALID_CONFIG` and writes nothing. -/
def consumption_get_stats (s : State) : Error × Option Stats :=
  if !s.initialized then
    (.INVALID_CONFIG, none)
  else
    (.SUCCESS, some { total_events := s.total_events,
                      buffered_events := s.buffer_count,
                      last_sync := s.last_sync })

/-- Result of a config update: new state, error code, persist request. -/
structure UpdateResult where
  state : State
  ret : Error
  persisted : Bool
  deriving DecidableEq

/-- Mirror of `consumption_update_config` (consumption.c lines 380-394); the
C null-pointer check cannot arise for a by-value `Config`. -/
def consumption_update_config (s : State) (c : Config) : UpdateResult :=
  if !validate_config c then
    { state := s, ret := .INVALID_CONFIG, persisted := false }
  else if c.ring_buffer_size ≠ s.config.ring_buffer_size then
    { state := s, ret := .INVALID_PARAMETER, persisted := false }
  else
    { state := { s with config := c }, ret := .SUCCESS, persisted := true }

/-- Continuation of `consumption_init` after config validation
(consumption.c lines 259-277): `restore` is the outcome of `load_state()`
(on success the C code overwrites the whole `g_state` struct with the blob),
`now` the clock value of line 264, `allocOk` the outcome of the `malloc`. -/
def initRest (chosen : Config) (restore : Option State) (now : Nat)
    (allocOk : Bool) : State × Error :=
  let s1 :=
    match restore with
    | some r => r
    | none => { zeroState with config := chosen, last_aggregation := now }
  if allocOk then
    ({ s1 with event_buffer := List.replicate s1.config.ring_buffer_size default,
               initialized := true },
     .SUCCESS)
  else
    (s1, .MEMORY_ERROR)

/-- Mirror of `consumption_init` (consumption.c lines 242-278). -/
def consumption_init (s : State) (cfg : Option Config) (restore : Option State)
    (now : Nat) (allocOk : Bool) : State × Error :=
  if s.initialized then
    (s, .SUCCESS)
  else
    match cfg with
    | some c =>
        if !validate_config c then (s, .INVALID_CONFIG)
        else initRest c restore now allocOk
    | none => initRest init_default_config restore now allocOk

/-- The state a successful first-run initialization produces (valid supplied
config, no persisted blob, allocation succeeds). -/
def initFresh (c : Config) (now : Nat) : State :=
  { zeroState with config := c, last_aggregation := now,
                   event_buffer := List.replicate c.ring_buffer_size default,
                   initialized := true }

/-- One record-event call with all its collaborator answers. -/
structure Call where
  machine_id : Nat
  product_id : Nat
  eventNow : Nat
  gateNow : Nat
  syncNow : Nat
  sendOk : Bool
  deriving DecidableEq

/-- Apply one record-event call. -/
def dispenseStep (s : State) (c : Call) : DispenseResult :=
  consumption_on_dispense s c.machine_id c.product_id c.eventNow c.gateNow c.syncNow c.sendOk

/-- Run a sequence of record-event calls. -/
def runDispense (s : State) : List Call → State
  | [] => s
  | c :: cs => runDispense (dispenseStep s c).state cs

/-- Number of calls in a record-event sequence that returned
`CONSUMPTION_SUCCESS`. -/
def successCount (s : State) : List Call → Nat
  | [] => 0
  | c :: cs =>
      (if (dispenseStep s c).ret = .SUCCESS then 1 else 0) +
        successCount (dispenseStep s c).state cs

/-- Run a sequence of update-config calls. -/
def runUpdates (s : State) : List Config → State
  | [] => s
  | c :: cs => runUpdates (consumption_update_config s c).state cs

/-! Frame lemmas about the embedded operations. -/

lemma validate_pos {c : Config} (h : validate_config c = true) :
    0 < c.ring_buffer_size := by
  unfold validate_config at h
  simp only [Bool.and_eq_true, Bool.not_eq_true', decide_eq_false_iff_not] at h
  omega

lemma add_event_ret (s : State) (e : Event) :
    (add_event_to_buffer s e).2 = .SUCCESS := by
  unfold add_event_to_buffer
  try simp only
  all_goals ((repeat' split) <;> rfl)

lemma add_event_config (s : State) (e : Event) :
    (add_event_to_buffer s e).1.config = s.config := by
  unfold add_event_to_buffer
  try simp only
  all_goals ((repeat' split) <;> rfl)

lemma add_event_total (s : State) (e : Event) :
    (add_event_to_buffer s e).1.total_events = s.total_events := by
  unfold add_event_to_buffer
  try simp only
  all_goals ((repeat' split) <;> rfl)

lemma add_event_initialized (s : State) (e : Event) :
    (add_event_to_buffer s e).1.initialized = s.initialized := by
  unfold add_event_to_buffer
  try simp only
  all_goals ((repeat' split) <;> rfl)

lemma add_event_last_sync (s : State) (e : Event) :
    (add_event_to_buffer s e).1.last_sync = s.last_sync := by
  unfold add_event_to_buffer
  try simp only
  all_goals ((repeat' split) <;> rfl)

lemma add_event_last_aggregation (s : State) (e : Event) :
    (add_event_to_buffer s e).1.last_aggregation = s.last_aggregation := by
  unfold add_event_to_buffer
  try simp only
  all_goals ((repeat' split) <;> rfl)

lemma add_event_sip (s : State) (e : Event) :
    (add_event_to_buffer s e).1.sync_in_progress = s.sync_in_progress := by
  unfold add_event_to_buffer
  try simp only
  all_goals ((repeat' split) <;> rfl)

lemma add_event_count_le (s : State) (e : Event)
    (hcap : 0 < s.config.ring_buffer_size)
    (h : s.buffer_count ≤ s.config.ring_buffer_size) :
    (add_event_to_buffer s e).1.buffer_count ≤ s.config.ring_buffer_size := by
  unfold add_event_to_buffer
  try simp only
  split <;> (try simp only) <;> omega

lemma sync_config (s : State) (n : Nat) (b : Bool) :
    (sync_to_api s n b).state.config = s.config := by
  unfold sync_to_api
  try simp only
  all_goals ((repeat' split) <;> rfl)

lemma sync_total (s : State) (n : Nat) (b : Bool) :
    (sync_to_api s n b).state.total_events = s.total_events := by
  unfold sync_to_api
  try simp only
  all_goals ((repeat' split) <;> rfl)

lemma sync_count (s : State) (n : Nat) (b : Bool) :
    (sync_to_api s n b).state.buffer_count = s.buffer_count := by
  unfold sync_to_api
  try simp only
  all_goals ((repeat' split) <;> rfl)

lemma sync_head (s : State) (n : Nat) (b : Bool) :
    (sync_to_api s n b).state.buffer_head = s.buffer_head := by
  unfold sync_to_api
  try simp only
  all_goals ((repeat' split) <;> rfl)

lemma sync_tail (s : State) (n : Nat) (b : Bool) :
    (sync_to_api s n b).state.buffer_tail = s.buffer_tail := by
  unfold sync_to_api
  try simp only
  all_goals ((repeat' split) <;> rfl)

lemma sync_buffer (s : State) (n : Nat) (b : Bool) :
    (sync_to_api s n b).state.event_buffer = s.event_buffer := by
  unfold sync_to_api
  try simp only
  all_goals ((repeat' split) <;> rfl)

lemma sync_initialized (s : State) (n : Nat) (b : Bool) :
    (sync_to_api s n b).state.initialized = s.initialized := by
  unfold sync_to_api
  try simp only
  all_goals ((repeat' split) <;> rfl)

lemma aggregate_events_sip (s : State) (v : Bool) (st en : Nat) :
    aggregate_events { s with sync_in_progress := v } st en = aggregate_events s st en := rfl

lemma update_size (s : State) (c : Config) :
    (consumption_update_config s c).state.config.ring_buffer_size =
      s.config.ring_buffer_size := by
  unfold consumption_update_config
  split
  · rfl
  · split
    · rfl
    · next h2 =>
      simp only [ne_eq, not_not] at h2
      simpa using h2

lemma runUpdates_size (l : List Config) : ∀ s : State,
    (runUpdates s l).config.ring_buffer_size = s.config.ring_buffer_size := by
  induction l with
  | nil => intro s; rfl
  | cons c cs ih =>
      intro s
      simp only [runUpdates]
      rw [ih, update_size]

/-! Concrete inputs used by witnesses and counterexamples. -/

/-- Capacity-3 configuration of the C2 scenario. -/
def c2Cfg : Config :=
  { machine_id := 9, enable_external_api := false, ring_buffer_size := 3,
    aggregation_interval := 3600, api_endpoint := "", api_key := "",
    max_retry_attempts := 0 }

/-- A record-event call against `c2Cfg` with category `p` at time `t`. -/
def c2Call (p t : Nat) : Call :=
  { machine_id := 9, product_id := p, eventNow := t, gateNow := t, syncNow := t,
    sendOk := false }

/-- The six calls of the C2 scenario, categories 1..6. -/
def c2Calls : List Call :=
  [c2Call 1 10, c2Call 2 11, c2Call 3 12, c2Call 4 13, c2Call 5 14, c2Call 6 15]

/-- A state with one buffered event and the external sink enabled, for sync
witnesses. -/
def c4State : State :=
  { initialized := true
    config := { machine_id := 2, enable_external_api := true, ring_buffer_size := 1,
                aggregation_interval := 10, api_endpoint := "e", api_key := "",
                max_retry_attempts := 0 }
    total_events := 1
    buffer_head := 0
    buffer_tail := 0
    buffer_count := 1
    event_buffer := [{ timestamp := 50, machine_id := 2, product_id := 7 }]
    last_aggregation := 0
    last_sync := 0
    sync_in_progress := false }

/-- Fresh-init configuration used by the C5 witness. -/
def c5Cfg : Config :=
  { machine_id := 3, enable_external_api := true, ring_buffer_size := 4,
    aggregation_interval := 3600, api_endpoint := "", api_key := "",
    max_retry_attempts := 0 }

/-- Base configuration of the C6 counterexample. -/
def c6Cfg : Config :=
  { machine_id := 5, enable_external_api := false, ring_buffer_size := 10,
    aggregation_interval := 100, api_endpoint := "", api_key := "",
    max_retry_attempts := 0 }

/-- The C6 counterexample update: same capacity, different machine id. -/
def c6CfgB : Config := { c6Cfg with machine_id := 6 }

/-- Configuration used by the C7 witness. -/
def c7Cfg : Config :=
  { machine_id := 9, enable_external_api := false, ring_buffer_size := 3,
    aggregation_interval := 3600, api_endpoint := "", api_key := "",
    max_retry_attempts := 0 }

/-- Configuration used by the C8 witness. -/
def c8Cfg : Config :=
  { machine_id := 4, enable_external_api := false, ring_buffer_size := 2,
    aggregation_interval := 60, api_endpoint := "", api_key := "",
    max_retry_attempts := 1 }

/-! Claim theorems. -/

/-- C2: with capacity 3, after six successful record-event calls with
categories 1,2,3,4,5,6 in that order, the buffer holds exactly the events
with categories 4,5,6 in oldest-to-newest order, the buffered count is 3,
and the lifetime total is 6; every append succeeded (the overwrite-oldest
path never fails). -/
theorem C2_capacity3_eviction :
    ((bufferedEvents (runDispense (initFresh c2Cfg 0) c2Calls)).map
        (fun e => e.product_id) = [4, 5, 6]) ∧
    (runDispense (initFresh c2Cfg 0) c2Calls).buffer_count = 3 ∧
    (runDispense (initFresh c2Cfg 0) c2Calls).total_events = 6 ∧
    successCount (initFresh c2Cfg 0) c2Calls = 6 := by
  decide

/-- C4: a sync attempt that reaches the network sink (sink enabled, scheduler
idle, interval elapsed, non-empty aggregate) sets `last_sync` and
`last_aggregation` to the sync's `now` and requests a persist when the sink
reports success, and leaves both window boundaries unchanged and returns
`API_ERROR` when the sink reports failure. -/
theorem C4_sync_success_failure (s : State) (now : Nat) (b : Bool)
    (hen : s.config.enable_external_api = true)
    (hidle : s.sync_in_progress = false)
    (hint : s.config.aggregation_interval ≤ wsub now s.last_aggregation)
    (hne : (aggregate_events s s.last_aggregation now).total_events ≠ 0) :
    (b = true →
      (sync_to_api s now b).state.last_sync = now ∧
      (sync_to_api s now b).state.last_aggregation = now ∧
      (sync_to_api s now b).persisted = true ∧
      (sync_to_api s now b).ret = .SUCCESS) ∧
    (b = false →
      (sync_to_api s now b).state.last_sync = s.last_sync ∧
      (sync_to_api s now b).state.last_aggregation = s.last_aggregation ∧
      (sync_to_api s now b).persisted = false ∧
      (sync_to_api s now b).ret = .API_ERROR) := by
  have hnlt : ¬ wsub now s.last_aggregation < s.config.aggregation_interval :=
    not_lt.mpr hint
  constructor <;> intro hb <;> subst hb <;>
    simp [sync_to_api, hen, hidle, hnlt, aggregate_events_sip, hne]

/-- Witness for C4 at a concrete state with a buffered in-window event. -/
theorem C4_sync_success_failure_witness :
    (c4State.config.enable_external_api = true ∧
     c4State.sync_in_progress = false ∧
     c4State.config.aggregation_interval ≤ wsub 100 c4State.last_aggregation ∧
     (aggregate_events c4State c4State.last_aggregation 100).total_events ≠ 0) ∧
    ((true = true →
      (sync_to_api c4State 100 true).state.last_sync = 100 ∧
      (sync_to_api c4State 100 true).state.last_aggregation = 100 ∧
      (sync_to_api c4State 100 true).persisted = true ∧
      (sync_to_api c4State 100 true).ret = .SUCCESS) ∧
     (true = false →
      (sync_to_api c4State 100 true).state.last_sync = c4State.last_sync ∧
      (sync_to_api c4State 100 true).state.last_aggregation = c4State.last_aggregation ∧
      (sync_to_api c4State 100 true).persisted = false ∧
      (sync_to_api c4State 100 true).ret = .API_ERROR)) :=
  ⟨⟨by decide, by decide, by decide, by decide⟩,
   C4_sync_success_failure c4State 100 true (by decide) (by decide) (by decide) (by decide)⟩

/-- C5: a sync trigger on an initialized idle instance for which the interval
has not elapsed, or whose window aggregate is empty, returns success, hands
nothing to the network sink, leaves `last_aggregation` and `last_sync`
unchanged, and leaves the scheduler idle. -/
theorem C5_sync_noop_paths (s : State) (now : Nat) (b : Bool)
    (hinit : s.initialized = true) (hidle : s.sync_in_progress = false)
    (h : wsub now s.last_aggregation < s.config.aggregation_interval ∨
         (aggregate_events s s.last_aggregation now).total_events = 0) :
    (consumption_force_sync s now b).ret = .SUCCESS ∧
    (consumption_force_sync s now b).sent = none ∧
    (consumption_force_sync s now b).state.last_aggregation = s.last_aggregation ∧
    (consumption_force_sync s now b).state.last_sync = s.last_sync ∧
    (consumption_force_sync s now b).state.sync_in_progress = false := by
  have hred : consumption_force_sync s now b = sync_to_api s now b := by
    unfold consumption_force_sync
    simp [hinit]
  rw [hred]
  unfold sync_to_api
  try simp only
  split_ifs with h1 h2 h3 h4 h5
  · exact ⟨rfl, rfl, rfl, rfl, hidle⟩
  · simp [hidle] at h2
  · exact ⟨rfl, rfl, rfl, rfl, rfl⟩
  · exact ⟨rfl, rfl, rfl, rfl, rfl⟩
  · exfalso
    rcases h with hw | h0
    · exact h3 hw
    · exact h4 h0
  · exfalso
    rcases h with hw | h0
    · exact h3 hw
    · exact h4 h0

/-- Witness for C5: forcing a sync on a freshly initialized instance before
the interval has elapsed. -/
theorem C5_sync_noop_paths_witness :
    ((initFresh c5Cfg 0).initialized = true ∧
     (initFresh c5Cfg 0).sync_in_progress = false ∧
     wsub 100 (initFresh c5Cfg 0).last_aggregation <
       (initFresh c5Cfg 0).config.aggregation_interval) ∧
    ((consumption_force_sync (initFresh c5Cfg 0) 100 true).ret = .SUCCESS ∧
     (consumption_force_sync (initFresh c5Cfg 0) 100 true).sent = none ∧
     (consumption_force_sync (initFresh c5Cfg 0) 100 true).state.last_aggregation =
       (initFresh c5Cfg 0).last_aggregation ∧
     (consumption_force_sync (initFresh c5Cfg 0) 100 true).state.last_sync =
       (initFresh c5Cfg 0).last_sync ∧
     (consumption_force_sync (initFresh c5Cfg 0) 100 true).state.sync_in_progress = false) :=
  ⟨⟨by decide, by decide, by decide⟩,
   C5_sync_noop_paths (initFresh c5Cfg 0) 100 true (by decide) (by decide)
     (Or.inl (by decide))⟩

/-- C6 counterexample: the claim says the machine identifier is fixed for the
life of a running instance, but `consumption_update_config` accepts a valid
config with an unchanged capacity and a different machine id, and installs
it: starting from a fresh init with machine id 5, one update call returns
success and leaves the active machine id at 6. -/
theorem C6_machine_id_counterexample :
    (consumption_update_config (initFresh c6Cfg 0) c6CfgB).ret = .SUCCESS ∧
    (initFresh c6Cfg 0).config.machine_id = 5 ∧
    (consumption_update_config (initFresh c6Cfg 0) c6CfgB).state.config.machine_id = 6 := by
  decide

/-- C6 (amended): `update_config` with an otherwise valid configuration whose
capacity differs from the active one returns `INVALID_PARAMETER` and changes
nothing, and after any sequence of `update_config` calls the capacity of the
active config equals its value at init; the machine identifier is not
protected and may be changed by an accepted update. -/
theorem C6_capacity_immutable (s : State) (c : Config) (updates : List Config)
    (hv : validate_config c = true)
    (hne : c.ring_buffer_size ≠ s.config.ring_buffer_size) :
    ((consumption_update_config s c).ret = .INVALID_PARAMETER ∧
      (consumption_update_config s c).state = s) ∧
    (runUpdates s updates).config.ring_buffer_size = s.config.ring_buffer_size := by
  refine ⟨?_, runUpdates_size updates s⟩
  unfold consumption_update_config
  simp [hv, hne]

/-- Witness for C6 (amended): a capacity-changing update is rejected. -/
theorem C6_capacity_immutable_witness :
    (validate_config c6CfgB = true ∧
     ({ c6CfgB with ring_buffer_size := 11 } : Config).ring_buffer_size ≠
       (initFresh c6Cfg 0).config.ring_buffer_size) ∧
    (((consumption_update_config (initFresh c6Cfg 0)
          { c6CfgB with ring_buffer_size := 11 }).ret = .INVALID_PARAMETER ∧
      (consumption_update_config (initFresh c6Cfg 0)
          { c6CfgB with ring_buffer_size := 11 }).state = initFresh c6Cfg 0) ∧
     (runUpdates (initFresh c6Cfg 0) [c6CfgB]).config.ring_buffer_size =
       (initFresh c6Cfg 0).config.ring_buffer_size) :=
  ⟨⟨by decide, by decide⟩,
   C6_capacity_immutable (initFresh c6Cfg 0) { c6CfgB with ring_buffer_size := 11 }
     [c6CfgB] (by decide) (by decide)⟩

/-- C7: on an initialized instance, a record-event call with a mismatched
machine id or category 0 returns `INVALID_PARAMETER` and leaves the module
state (buffer contents, head, tail, count, lifetime total) unchanged. -/
theorem C7_reject_invalid_dispense (s : State) (mid pid en gn sn : Nat) (b : Bool)
    (hinit : s.initialized = true)
    (h : mid ≠ s.config.machine_id ∨ pid = 0) :
    (consumption_on_dispense s mid pid en gn sn b).ret = .INVALID_PARAMETER ∧
    (consumption_on_dispense s mid pid en gn sn b).state = s ∧
    (consumption_on_dispense s mid pid en gn sn b).sent = none := by
  by_cases hm : mid ≠ s.config.machine_id
  · simp [consumption_on_dispense, hinit, hm]
  · rcases h with h | h
    · exact absurd h hm
    · simp [consumption_on_dispense, hinit, hm, h]

/-- Witness for C7: category 0 is rejected on a fresh instance. -/
theorem C7_reject_invalid_dispense_witness :
    ((initFresh c7Cfg 0).initialized = true ∧
     ((1 : Nat) ≠ (initFresh c7Cfg 0).config.machine_id ∨ (5 : Nat) = 0)) ∧
    ((consumption_on_dispense (initFresh c7Cfg 0) 1 5 7 7 7 false).ret = .INVALID_PARAMETER ∧
     (consumption_on_dispense (initFresh c7Cfg 0) 1 5 7 7 7 false).state = initFresh c7Cfg 0 ∧
     (consumption_on_dispense (initFresh c7Cfg 0) 1 5 7 7 7 false).sent = none) :=
  ⟨⟨by decide, Or.inl (by decide)⟩,
   C7_reject_invalid_dispense (initFresh c7Cfg 0) 1 5 7 7 7 false (by decide)
     (Or.inl (by decide))⟩

/-- C8: record-event, get-stats and force-sync on an uninitialized instance
return `INVALID_CONFIG` and change nothing; `init` on an initialized
instance is a no-op returning success, so a first successful init followed
by a second init call yields success both times with the second changing
nothing. -/
theorem C8_uninit_and_idempotent_init (s t : State) (mid pid en gn sn now n2 : Nat)
    (b a2 : Bool) (cfg : Config) (cfg2 : Option Config) (r2 : Option State)
    (hun : s.initialized = false) (ht : t.initialized = true)
    (hv : validate_config cfg = true) :
    ((consumption_on_dispense s mid pid en gn sn b).ret = .INVALID_CONFIG ∧
      (consumption_on_dispense s mid pid en gn sn b).state = s) ∧
    consumption_get_stats s = (.INVALID_CONFIG, none) ∧
    ((consumption_force_sync s now b).ret = .INVALID_CONFIG ∧
      (consumption_force_sync s now b).state = s) ∧
    consumption_init t cfg2 r2 n2 a2 = (t, .SUCCESS) ∧
    consumption_init zeroState (some cfg) none now true = (initFresh cfg now, .SUCCESS) ∧
    consumption_init (initFresh cfg now) cfg2 r2 n2 a2 = (initFresh cfg now, .SUCCESS) := by
  refine ⟨⟨?_, ?_⟩, ?_, ⟨?_, ?_⟩, ?_, ?_, ?_⟩ <;>
    simp [consumption_on_dispense, consumption_get_stats, consumption_force_sync,
          consumption_init, initRest, initFresh, zeroState, hun, ht, hv]

/-- Witness for C8 at concrete states. -/
theorem C8_uninit_and_idempotent_init_witness :
    (zeroState.initialized = false ∧ (initFresh c8Cfg 3).initialized = true ∧
     validate_config c8Cfg = true) ∧
    (((consumption_on_dispense zeroState 4 1 9 9 9 false).ret = .INVALID_CONFIG ∧
      (consumption_on_dispense zeroState 4 1 9 9 9 false).state = zeroState) ∧
     consumption_get_stats zeroState = (.INVALID_CONFIG, none) ∧
     ((consumption_force_sync zeroState 9 false).ret = .INVALID_CONFIG ∧
      (consumption_force_sync zeroState 9 false).state = zeroState) ∧
     consumption_init (initFresh c8Cfg 3) none none 5 true = (initFresh c8Cfg 3, .SUCCESS) ∧
     consumption_init zeroState (some c8Cfg) none 9 true = (initFresh c8Cfg 9, .SUCCESS) ∧
     consumption_init (initFresh c8Cfg 9) none none 5 true = (initFresh c8Cfg 9, .SUCCESS)) :=
  ⟨⟨by decide, by decide, by decide⟩,
   C8_uninit_and_idempotent_init zeroState (initFresh c8Cfg 3) 4 1 9 9 9 9 5 false true
     c8Cfg none none (by decide) (by decide) (by decide)⟩

/-! Aggregation fold lemmas. -/

lemma agg_fold_total (st en : Nat) (l : List Event) : ∀ a : Aggregate,
    (l.foldl (agg_step st en) a).total_events =
      a.total_events + l.countP (inWindow st en) := by
  induction l with
  | nil => intro a; simp
  | cons e l ih =>
      intro a
      simp only [List.foldl_cons, List.countP_cons]
      rw [ih]
      by_cases hw : inWindow st en e
      · simp [agg_step, hw]
        omega
      · simp [agg_step, hw]

lemma agg_fold_counts (st en c : Nat) (hc : c < 256) (l : List Event) :
    ∀ a : Aggregate,
    (l.foldl (agg_step st en) a).product_counts c =
      a.product_counts c +
        l.countP (fun e => inWindow st en e && decide (e.product_id = c)) := by
  induction l with
  | nil => intro a; simp
  | cons e l ih =>
      intro a
      simp only [List.foldl_cons, List.countP_cons]
      rw [ih]
      by_cases hw : inWindow st en e
      · by_cases hp : e.product_id < 256
        · by_cases hpc : e.product_id = c
          · subst hpc
            simp [agg_step, hw, hp]
            omega
          · have hcp : ¬ c = e.product_id := fun hh => hpc hh.symm
            simp [agg_step, hw, hp, hpc, hcp]
        · have hpc : ¬ e.product_id = c := by omega
          simp [agg_step, hw, hp, hpc]
      · simp [agg_step, hw]

lemma agg_fold_meta (st en : Nat) (l : List Event) : ∀ a : Aggregate,
    (l.foldl (agg_step st en) a).machine_id = a.machine_id ∧
    (l.foldl (agg_step st en) a).period_start = a.period_start ∧
    (l.foldl (agg_step st en) a).period_end = a.period_end := by
  induction l with
  | nil => intro a; exact ⟨rfl, rfl, rfl⟩
  | cons e l ih =>
      intro a
      simp only [List.foldl_cons]
      refine ⟨((ih _).1).trans ?_, ((ih _).2.1).trans ?_, ((ih _).2.2).trans ?_⟩ <;>
        (unfold agg_step; split <;> rfl)

/-- State used by the C3 witness: three buffered events, tail in the middle
of the ring. -/
def c3State : State :=
  { initialized := true
    config := { machine_id := 1, enable_external_api := false, ring_buffer_size := 3,
                aggregation_interval := 10, api_endpoint := "", api_key := "",
                max_retry_attempts := 0 }
    total_events := 3
    buffer_head := 1
    buffer_tail := 1
    buffer_count := 3
    event_buffer := [{ timestamp := 5, machine_id := 1, product_id := 2 },
                     { timestamp := 15, machine_id := 1, product_id := 2 },
                     { timestamp := 25, machine_id := 1, product_id := 3 }]
    last_aggregation := 0
    last_sync := 0
    sync_in_progress := false }

/-- C3: for every buffer state and window, the aggregate's total equals the
number of currently buffered events whose timestamp lies in
`[window_start, window_end]` (both ends inclusive), and for each category
1..255 the per-category count equals the number of such events with that
category; the aggregate also carries the machine id and the window bounds,
and the computation reads the buffer without modifying it (the embedded
`aggregate_events` is a pure function of the state, mirroring that the C
function writes only its out-parameter). -/
theorem C3_aggregate_window_counts (s : State) (st en c : Nat)
    (h1 : 1 ≤ c) (h2 : c ≤ 255) :
    (aggregate_events s st en).total_events =
      (bufferedEvents s).countP (inWindow st en) ∧
    (aggregate_events s st en).product_counts c =
      (bufferedEvents s).countP
        (fun e => inWindow st en e && decide (e.product_id = c)) ∧
    (aggregate_events s st en).machine_id = s.config.machine_id ∧
    (aggregate_events s st en).period_start = st ∧
    (aggregate_events s st en).period_end = en := by
  refine ⟨?_, ?_, ?_, ?_, ?_⟩
  · unfold aggregate_events
    rw [agg_fold_total]
    simp
  · unfold aggregate_events
    rw [agg_fold_counts st en c (by omega)]
    simp
  · exact (agg_fold_meta st en (bufferedEvents s) _).1
  · exact (agg_fold_meta st en (bufferedEvents s) _).2.1
  · exact (agg_fold_meta st en (bufferedEvents s) _).2.2

/-- Witness for C3 on a concrete three-event buffer and window [10, 30]. -/
theorem C3_aggregate_window_counts_witness :
    ((1 : Nat) ≤ 2 ∧ (2 : Nat) ≤ 255) ∧
    ((aggregate_events c3State 10 30).total_events =
      (bufferedEvents c3State).countP (inWindow 10 30) ∧
     (aggregate_events c3State 10 30).product_counts 2 =
      (bufferedEvents c3State).countP
        (fun e => inWindow 10 30 e && decide (e.product_id = 2)) ∧
     (aggregate_events c3State 10 30).machine_id = c3State.config.machine_id ∧
     (aggregate_events c3State 10 30).period_start = 10 ∧
     (aggregate_events c3State 10 30).period_end = 30) :=
  ⟨⟨by decide, by decide⟩,
   C3_aggregate_window_counts c3State 10 30 2 (by decide) (by decide)⟩

/-! Per-call frame lemmas for record-event sequences. -/

lemma dispense_config (s : State) (c : Call) :
    (dispenseStep s c).state.config = s.config := by
  unfold dispenseStep consumption_on_dispense
  try simp only
  split_ifs <;> simp [sync_config, add_event_config]

lemma dispense_initialized (s : State) (c : Call) :
    (dispenseStep s c).state.initialized = s.initialized := by
  unfold dispenseStep consumption_on_dispense
  try simp only
  split_ifs <;> simp [sync_initialized, add_event_initialized]

lemma add_event_count_eq (s : State) (e : Event) :
    (add_event_to_buffer s e).1.buffer_count =
      (if s.buffer_count ≥ s.config.ring_buffer_size then s.buffer_count - 1
       else s.buffer_count) + 1 := by
  unfold add_event_to_buffer
  try simp only
  split <;> rfl

lemma dispense_count (s : State) (c : Call)
    (hcap : 0 < s.config.ring_buffer_size)
    (hle : s.buffer_count ≤ s.config.ring_buffer_size) :
    (dispenseStep s c).state.buffer_count ≤ s.config.ring_buffer_size := by
  unfold dispenseStep consumption_on_dispense
  try simp only
  split_ifs <;> (try rw [sync_count]) <;> (try simp only [add_event_count_eq]) <;>
    (try split_ifs) <;> omega

lemma dispense_total (s : State) (c : Call)
    (h : (dispenseStep s c).ret = .SUCCESS) :
    (dispenseStep s c).state.total_events = (s.total_events + 1) % U32MOD := by
  unfold dispenseStep consumption_on_dispense at h ⊢
  try simp only at h ⊢
  split_ifs at h ⊢ with h1 h2 h3 h4 h5 h6
  · exact absurd (add_event_ret _ _) h4
  · dsimp only
    rw [sync_total]
    simp [add_event_total]
  · simp [add_event_total]
  · simp [add_event_total]

lemma dispense_fail (s : State) (c : Call)
    (h : (dispenseStep s c).ret ≠ .SUCCESS) :
    (dispenseStep s c).state = s := by
  unfold dispenseStep consumption_on_dispense at h ⊢
  try simp only at h ⊢
  split_ifs at h ⊢ with h1 h2 h3 h4 h5 h6 <;>
    first
      | rfl
      | exact absurd (add_event_ret _ _) h4
      | exact absurd rfl h

lemma runDispense_cfg (l : List Call) : ∀ s : State,
    (runDispense s l).config = s.config := by
  induction l with
  | nil => intro s; rfl
  | cons c cs ih =>
      intro s
      simp only [runDispense]
      rw [ih, dispense_config]

lemma runDispense_init (l : List Call) : ∀ s : State,
    (runDispense s l).initialized = s.initialized := by
  induction l with
  | nil => intro s; rfl
  | cons c cs ih =>
      intro s
      simp only [runDispense]
      rw [ih, dispense_initialized]

lemma runDispense_count (l : List Call) : ∀ s : State,
    0 < s.config.ring_buffer_size → s.buffer_count ≤ s.config.ring_buffer_size →
    (runDispense s l).buffer_count ≤ s.config.ring_buffer_size := by
  induction l with
  | nil => intro s _ hle; exact hle
  | cons c cs ih =>
      intro s hcap hle
      simp only [runDispense]
      have hc := dispense_config s c
      have hrec := ih (dispenseStep s c).state
        (by rw [hc]; exact hcap) (by rw [hc]; exact dispense_count s c hcap hle)
      rwa [hc] at hrec

lemma U32MOD_pos : 0 < U32MOD := by decide

lemma runDispense_total (l : List Call) : ∀ s : State, s.total_events < U32MOD →
    (runDispense s l).total_events =
      (s.total_events + successCount s l) % U32MOD := by
  induction l with
  | nil =>
      intro s h
      simp only [runDispense, successCount, Nat.add_zero]
      exact (Nat.mod_eq_of_lt h).symm
  | cons c cs ih =>
      intro s h
      simp only [runDispense, successCount]
      by_cases hr : (dispenseStep s c).ret = .SUCCESS
      · have hlt : (dispenseStep s c).state.total_events < U32MOD := by
          rw [dispense_total s c hr]
          exact Nat.mod_lt _ U32MOD_pos
        have hone : (if (dispenseStep s c).ret = Error.SUCCESS then 1 else 0) = 1 :=
          if_pos hr
        rw [ih _ hlt, dispense_total s c hr, Nat.mod_add_mod, hone]
        congr 1
        omega
      · have hzero : (if (dispenseStep s c).ret = Error.SUCCESS then 1 else 0) = 0 :=
          if_neg hr
        rw [dispense_fail s c hr, hzero, ih s h]
        simp

/-- C1 counterexample configuration: capacity 1, sink disabled. -/
def cexCfg : Config :=
  { machine_id := 1, enable_external_api := false, ring_buffer_size := 1,
    aggregation_interval := 3600, api_endpoint := "", api_key := "",
    max_retry_attempts := 3 }

/-- C1 counterexample call: always accepted against `cexCfg`. -/
def cexCall : Call :=
  { machine_id := 1, product_id := 1, eventNow := 0, gateNow := 0, syncNow := 0,
    sendOk := false }

lemma cex_step (s : State) (hi : s.initialized = true) (hc : s.config = cexCfg) :
    (dispenseStep s cexCall).ret = .SUCCESS ∧
    (dispenseStep s cexCall).state.initialized = true ∧
    (dispenseStep s cexCall).state.config = cexCfg ∧
    (dispenseStep s cexCall).state.total_events = (s.total_events + 1) % U32MOD := by
  unfold dispenseStep consumption_on_dispense
  simp [cexCall, hi, hc, cexCfg, add_event_ret, add_event_total, add_event_config,
        add_event_initialized]

lemma cex_run (n : Nat) : ∀ s : State, s.initialized = true → s.config = cexCfg →
    s.total_events < U32MOD →
    (runDispense s (List.replicate n cexCall)).total_events =
      (s.total_events + n) % U32MOD ∧
    successCount s (List.replicate n cexCall) = n := by
  induction n with
  | zero =>
      intro s _ _ hlt
      simp only [List.replicate_zero, runDispense, successCount, Nat.add_zero]
      exact ⟨(Nat.mod_eq_of_lt hlt).symm, trivial⟩
  | succ n ih =>
      intro s hi hc hlt
      obtain ⟨hret, hinit, hcfg, htot⟩ := cex_step s hi hc
      have hlt2 : (dispenseStep s cexCall).state.total_events < U32MOD := by
        rw [htot]; exact Nat.mod_lt _ U32MOD_pos
      obtain ⟨ihtot, ihsc⟩ := ih (dispenseStep s cexCall).state hinit hcfg hlt2
      simp only [List.replicate_succ, runDispense, successCount]
      constructor
      · rw [ihtot, htot, Nat.mod_add_mod]
        congr 1
        omega
      · rw [ihsc]
        simp [hret]
        try omega

/-- C1 counterexample: the lifetime counter is a `uint32_t` and wraps, so
after `2 ^ 32` successful record-event calls following a fresh init it reads
0 while the number of calls that returned success is `2 ^ 32`; the claimed
exact equality fails at this input. -/
theorem C1_exact_total_counterexample :
    ¬ ((runDispense (initFresh cexCfg 0) (List.replicate U32MOD cexCall)).total_events =
        successCount (initFresh cexCfg 0) (List.replicate U32MOD cexCall)) := by
  have h := cex_run U32MOD (initFresh cexCfg 0) rfl rfl (by decide)
  rw [h.1, h.2]
  decide

/-- C1 (amended): after a successful fresh init, for every sequence of
record-event calls the buffered count satisfies
`0 ≤ count ≤ configured capacity` (every intermediate state is covered by
applying the statement to the corresponding prefix), and the lifetime
total-event counter equals the number of calls that returned success reduced
modulo `2 ^ 32` (exactly that number while fewer than `2 ^ 32` calls have
succeeded; the `uint32_t` counter wraps beyond that). -/
theorem C1_capacity_invariant_and_total (c : Config) (now : Nat) (calls : List Call)
    (hv : validate_config c = true) :
    (runDispense (initFresh c now) calls).buffer_count ≤ c.ring_buffer_size ∧
    (runDispense (initFresh c now) calls).total_events =
      successCount (initFresh c now) calls % U32MOD := by
  constructor
  · exact runDispense_count calls (initFresh c now) (validate_pos hv) (Nat.zero_le _)
  · have h := runDispense_total calls (initFresh c now)
      (by rw [show (initFresh c now).total_events = 0 from rfl]; exact U32MOD_pos)
    rw [show (initFresh c now).total_events = 0 from rfl, Nat.zero_add] at h
    exact h

/-- Witness for C1 (amended) on the capacity-3 scenario calls. -/
theorem C1_capacity_invariant_and_total_witness :
    validate_config c2Cfg = true ∧
    ((runDispense (initFresh c2Cfg 0) c2Calls).buffer_count ≤ c2Cfg.ring_buffer_size ∧
     (runDispense (initFresh c2Cfg 0) c2Calls).total_events =
       successCount (initFresh c2Cfg 0) c2Calls % U32MOD) :=
  ⟨by decide, C1_capacity_invariant_and_total c2Cfg 0 c2Calls (by decide)⟩

/-- Configuration used by the C10 witness: external sink enabled. -/
def c10Cfg : Config :=
  { machine_id := 8, enable_external_api := true, ring_buffer_size := 4,
    aggregation_interval := 10, api_endpoint := "u", api_key := "",
    max_retry_attempts := 0 }

/-- C10: a successful record-event call reaches the opportunistic sync call
exactly when the external sink is enabled and the `uint32_t` difference
`now - last_sync` (with `now` the gate's clock reading) is at least the
aggregation interval; anything handed to the network sink implies the sync
was attempted; and when no sync is attempted, `last_sync` and
`last_aggregation` are unchanged. -/
theorem C10_opportunistic_sync_gate (s : State) (mid pid en gn sn : Nat) (b : Bool)
    (hinit : s.initialized = true) (hm : mid = s.config.machine_id) (hp : pid ≠ 0) :
    ((consumption_on_dispense s mid pid en gn sn b).syncAttempted = true ↔
      (s.config.enable_external_api = true ∧
       wsub gn s.last_sync ≥ s.config.aggregation_interval)) ∧
    ((consumption_on_dispense s mid pid en gn sn b).sent ≠ none →
      (consumption_on_dispense s mid pid en gn sn b).syncAttempted = true) ∧
    ((consumption_on_dispense s mid pid en gn sn b).syncAttempted = false →
      (consumption_on_dispense s mid pid en gn sn b).state.last_sync = s.last_sync ∧
      (consumption_on_dispense s mid pid en gn sn b).state.last_aggregation =
        s.last_aggregation) := by
  unfold consumption_on_dispense
  rw [if_neg (by simp [hinit]), if_neg (by simp [hm]), if_neg hp]
  try simp only
  rw [if_neg (by simp [add_event_ret])]
  try simp only
  split_ifs with h1 h2
  · refine ⟨?_, fun _ => rfl, ?_⟩
    · constructor
      · intro _
        constructor
        · simpa [add_event_config] using h1
        · simpa [add_event_config, add_event_last_sync] using h2
      · intro _
        rfl
    · intro hh
      simp at hh
  · refine ⟨?_, ?_, ?_⟩
    · constructor
      · intro hh
        simp at hh
      · rintro ⟨he, hg⟩
        exact absurd (by simpa [add_event_config, add_event_last_sync] using hg) h2
    · intro hne
      exact absurd rfl hne
    · intro _
      constructor <;> simp [add_event_last_sync, add_event_last_aggregation]
  · refine ⟨?_, ?_, ?_⟩
    · constructor
      · intro hh
        simp at hh
      · rintro ⟨he, hg⟩
        exact absurd (by simpa [add_event_config] using he) h1
    · intro hne
      exact absurd rfl hne
    · intro _
      constructor <;> simp [add_event_last_sync, add_event_last_aggregation]

/-- Witness for C10: sink enabled but interval not yet elapsed, so no sync
attempt happens. -/
theorem C10_opportunistic_sync_gate_witness :
    ((initFresh c10Cfg 0).initialized = true ∧
     (8 : Nat) = (initFresh c10Cfg 0).config.machine_id ∧ (2 : Nat) ≠ 0) ∧
    (((consumption_on_dispense (initFresh c10Cfg 0) 8 2 5 5 5 true).syncAttempted = true ↔
       ((initFresh c10Cfg 0).config.enable_external_api = true ∧
        wsub 5 (initFresh c10Cfg 0).last_sync ≥
          (initFresh c10Cfg 0).config.aggregation_interval)) ∧
     ((consumption_on_dispense (initFresh c10Cfg 0) 8 2 5 5 5 true).sent ≠ none →
       (consumption_on_dispense (initFresh c10Cfg 0) 8 2 5 5 5 true).syncAttempted = true) ∧
     ((consumption_on_dispense (initFresh c10Cfg 0) 8 2 5 5 5 true).syncAttempted = false →
       (consumption_on_dispense (initFresh c10Cfg 0) 8 2 5 5 5 true).state.last_sync =
         (initFresh c10Cfg 0).last_sync ∧
       (consumption_on_dispense (initFresh c10Cfg 0) 8 2 5 5 5 true).state.last_aggregation =
         (initFresh c10Cfg 0).last_aggregation)) :=
  ⟨⟨by decide, by decide, by decide⟩,
   C10_opportunistic_sync_gate (initFresh c10Cfg 0) 8 2 5 5 5 true (by decide)
     (by decide) (by decide)⟩

/-! Wire-payload refinement: the string the C `snprintf` loop builds versus
the payload shape the spec describes. -/

/-- Concatenation of items each preceded by a comma. -/
def catComma : List String → String
  | [] => ""
  | x :: xs => "," ++ x ++ catComma xs

/-- Comma-separated concatenation of a list of items. -/
def commaJoin : List String → String
  | [] => ""
  | x :: xs => x ++ catComma xs

/-- Spec-side products object body (spec section 6): the entries
`"<category_id>":<count>` for exactly the category identifiers 1..255 whose
count is nonzero, comma-separated, keys in increasing order. -/
def productsJsonSpec (counts : Nat → Nat) : String :=
  commaJoin (((List.range' 1 255).filter (fun i => counts i > 0)).map (prodItem counts))

/-- Spec-side wire payload (spec section 6): a JSON object with the literal
fields machine_id, period_start, period_end, total_events, and a products
object holding exactly the nonzero categories. -/
def jsonPayloadSpec (a : Aggregate) : String :=
  "\x7b\"machine_id\":" ++ toString a.machine_id ++
    ",\"period_start\":" ++ toString a.period_start ++
    ",\"period_end\":" ++ toString a.period_end ++
    ",\"total_events\":" ++ toString a.total_events ++
    ",\"products\":\x7b" ++ productsJsonSpec a.product_counts ++ "\x7d\x7d"

lemma prodFold (counts : Nat → Nat) (l : List Nat) : ∀ acc : String,
    ((l.foldl (prodStep counts) (acc, true)).1 =
      acc ++ commaJoin ((l.filter (fun i => counts i > 0)).map (prodItem counts))) ∧
    ((l.foldl (prodStep counts) (acc, false)).1 =
      acc ++ catComma ((l.filter (fun i => counts i > 0)).map (prodItem counts))) := by
  induction l with
  | nil =>
      intro acc
      constructor <;> simp [commaJoin, catComma, String.append_empty]
  | cons i l ih =>
      intro acc
      by_cases h : counts i > 0
      · constructor
        · simp only [List.foldl_cons]
          rw [show prodStep counts (acc, true) i = (acc ++ prodItem counts i, false) by
            simp [prodStep, h]]
          rw [(ih (acc ++ prodItem counts i)).2]
          simp [List.filter_cons, h, commaJoin, String.append_assoc]
        · simp only [List.foldl_cons]
          rw [show prodStep counts (acc, false) i = (acc ++ "," ++ prodItem counts i, false) by
            simp [prodStep, h]]
          rw [(ih (acc ++ "," ++ prodItem counts i)).2]
          simp [List.filter_cons, h, catComma, String.append_assoc]
      · constructor
        · simp only [List.foldl_cons]
          rw [show prodStep counts (acc, true) i = (acc, true) by simp [prodStep, h]]
          rw [(ih acc).1]
          simp [List.filter_cons, h]
        · simp only [List.foldl_cons]
          rw [show prodStep counts (acc, false) i = (acc, false) by simp [prodStep, h]]
          rw [(ih acc).2]
          simp [List.filter_cons, h]

lemma productsJson_eq (counts : Nat → Nat) :
    productsJson counts = productsJsonSpec counts := by
  unfold productsJson productsJsonSpec
  rw [(prodFold counts (List.range' 1 255) "").1, String.empty_append]

lemma jsonPayload_eq (a : Aggregate) : jsonPayload a = jsonPayloadSpec a := by
  unfold jsonPayload jsonHeader jsonPayloadSpec
  rw [productsJson_eq]

/-! Relating the bounded buffer writes to the untruncated serialization when
the payload fits the buffer. -/

lemma snWrite_fits (b : SnBuf) (piece : String)
    (h : b.len + piece.length < BUFSZ) :
    snWrite b piece = { buf := b.buf ++ piece, len := b.len + piece.length } := by
  unfold snWrite
  try simp only
  have h1 : ¬ (BUFSZ - b.len = 0) := by
    unfold BUFSZ at h ⊢
    omega
  rw [if_neg h1]
  have h2 : piece.data.length ≤ BUFSZ - b.len - 1 := by
    have hh : piece.data.length = piece.length := rfl
    unfold BUFSZ at h ⊢
    omega
  rw [List.take_of_length_le h2]

lemma snWrite_sync (X p : String) (h : (X ++ p).length < BUFSZ) :
    snWrite ⟨X, X.length⟩ p = ⟨X ++ p, (X ++ p).length⟩ := by
  have hlen : X.length + p.length < BUFSZ := by
    rw [String.length_append] at h
    exact h
  rw [snWrite_fits ⟨X, X.length⟩ p hlen]
  rw [String.length_append]

lemma prodStep_len_mono (counts : Nat → Nat) (l : List Nat) :
    ∀ (acc : String) (fl : Bool),
    acc.length ≤ ((l.foldl (prodStep counts) (acc, fl)).1).length := by
  induction l with
  | nil => intro acc fl; exact le_rfl
  | cons i l ih =>
      intro acc fl
      simp only [List.foldl_cons]
      by_cases h : counts i > 0
      · rw [show prodStep counts (acc, fl) i =
              ((if fl then acc else acc ++ ",") ++ prodItem counts i, false) by
            simp [prodStep, h]]
        refine le_trans ?_ (ih _ _)
        cases fl <;> simp [String.length_append] <;> omega
      · rw [show prodStep counts (acc, fl) i = (acc, fl) by simp [prodStep, h]]
        exact ih acc fl

lemma prodBuild_sim (counts : Nat → Nat) (l : List Nat) :
    ∀ (acc : String) (fl : Bool),
    ((l.foldl (prodStep counts) (acc, fl)).1).length < BUFSZ →
    l.foldl (prodBuildStep counts) (⟨acc, acc.length⟩, fl) =
      (⟨(l.foldl (prodStep counts) (acc, fl)).1,
        ((l.foldl (prodStep counts) (acc, fl)).1).length⟩,
       (l.foldl (prodStep counts) (acc, fl)).2) := by
  induction l with
  | nil => intro acc fl _; rfl
  | cons i l ih =>
      intro acc fl hlen
      simp only [List.foldl_cons] at hlen ⊢
      by_cases hc : counts i > 0
      · cases fl
        · rw [show prodStep counts (acc, false) i =
                (acc ++ "," ++ prodItem counts i, false) by simp [prodStep, hc]] at hlen ⊢
          rw [show prodBuildStep counts (⟨acc, acc.length⟩, false) i =
                (snWrite (snWrite ⟨acc, acc.length⟩ ",") (prodItem counts i), false) by
              simp [prodBuildStep, hc]]
          have hmono := prodStep_len_mono counts l (acc ++ "," ++ prodItem counts i) false
          have hfit2 : (acc ++ "," ++ prodItem counts i).length < BUFSZ := by omega
          have hfit1 : (acc ++ ",").length < BUFSZ := by
            rw [String.length_append] at hfit2
            omega
          rw [snWrite_sync acc "," hfit1,
              snWrite_sync (acc ++ ",") (prodItem counts i) hfit2]
          exact ih (acc ++ "," ++ prodItem counts i) false hlen
        · rw [show prodStep counts (acc, true) i =
                (acc ++ prodItem counts i, false) by simp [prodStep, hc]] at hlen ⊢
          rw [show prodBuildStep counts (⟨acc, acc.length⟩, true) i =
                (snWrite ⟨acc, acc.length⟩ (prodItem counts i), false) by
              simp [prodBuildStep, hc]]
          have hmono := prodStep_len_mono counts l (acc ++ prodItem counts i) false
          have hfit1 : (acc ++ prodItem counts i).length < BUFSZ := by omega
          rw [snWrite_sync acc (prodItem counts i) hfit1]
          exact ih (acc ++ prodItem counts i) false hlen
      · rw [show prodStep counts (acc, fl) i = (acc, fl) by simp [prodStep, hc]] at hlen ⊢
        rw [show prodBuildStep counts (⟨acc, acc.length⟩, fl) i = (⟨acc, acc.length⟩, fl) by
              simp [prodBuildStep, hc]]
        exact ih acc fl hlen

lemma buildPayload_fits (a : Aggregate) (h : (jsonPayload a).length < BUFSZ) :
    buildPayload a = ⟨jsonPayload a, (jsonPayload a).length⟩ := by
  have hlen : (jsonPayload a).length =
      (jsonHeader a).length + (",\"products\":\x7b").length +
        (productsJson a.product_counts).length + ("\x7d\x7d").length := by
    show ((((jsonHeader a) ++ ",\"products\":\x7b") ++ productsJson a.product_counts)
        ++ "\x7d\x7d").length = _
    rw [String.length_append, String.length_append, String.length_append]
  unfold buildPayload
  try simp only
  have h0 : snWrite ⟨"", 0⟩ (jsonHeader a) = ⟨jsonHeader a, (jsonHeader a).length⟩ := by
    have hfit : ("" ++ jsonHeader a).length < BUFSZ := by
      rw [String.empty_append]
      omega
    have hw := snWrite_sync "" (jsonHeader a) hfit
    rw [String.empty_append] at hw
    exact hw
  rw [h0]
  have h1fit : ((jsonHeader a ++ ",\"products\":\x7b")).length < BUFSZ := by
    rw [String.length_append]
    omega
  rw [snWrite_sync (jsonHeader a) ",\"products\":\x7b" h1fit]
  have hfold1 : ((List.range' 1 255).foldl (prodStep a.product_counts)
      (jsonHeader a ++ ",\"products\":\x7b", true)).1 =
      (jsonHeader a ++ ",\"products\":\x7b") ++ productsJson a.product_counts := by
    rw [(prodFold a.product_counts (List.range' 1 255)
          (jsonHeader a ++ ",\"products\":\x7b")).1, productsJson_eq]
    rfl
  have hfoldlen : (((List.range' 1 255).foldl (prodStep a.product_counts)
      (jsonHeader a ++ ",\"products\":\x7b", true)).1).length < BUFSZ := by
    rw [hfold1, String.length_append, String.length_append]
    omega
  have hsim := prodBuild_sim a.product_counts (List.range' 1 255)
      (jsonHeader a ++ ",\"products\":\x7b") true hfoldlen
  have hsim1 : ((List.range' 1 255).foldl (prodBuildStep a.product_counts)
      (⟨jsonHeader a ++ ",\"products\":\x7b",
        (jsonHeader a ++ ",\"products\":\x7b").length⟩, true)).1 =
      ⟨(jsonHeader a ++ ",\"products\":\x7b") ++ productsJson a.product_counts,
       ((jsonHeader a ++ ",\"products\":\x7b") ++ productsJson a.product_counts).length⟩ := by
    rw [hsim, hfold1]
  rw [hsim1]
  have h2fit : ((((jsonHeader a) ++ ",\"products\":\x7b") ++ productsJson a.product_counts)
      ++ "\x7d\x7d").length < BUFSZ := h
  rw [snWrite_sync ((jsonHeader a ++ ",\"products\":\x7b") ++ productsJson a.product_counts)
      "\x7d\x7d" h2fit]
  rfl

/-- State used by the C9 witness: sink enabled, one buffered event. -/
def c9State : State :=
  { initialized := true
    config := { machine_id := 2, enable_external_api := true, ring_buffer_size := 1,
                aggregation_interval := 10, api_endpoint := "e", api_key := "",
                max_retry_attempts := 0 }
    total_events := 1
    buffer_head := 0
    buffer_tail := 0
    buffer_count := 1
    event_buffer := [{ timestamp := 50, machine_id := 2, product_id := 7 }]
    last_aggregation := 0
    last_sync := 0
    sync_in_progress := false }

/-- State of the C9 counterexample: 118 in-window events with the three-digit
categories 100..217, each count 1, so the untruncated serialization is
exactly 1024 characters — one more than the 1023 content characters
`json_buffer` can hold.  Every `snprintf` call in this run starts at
`len ≤ 1022`, so all writes are well defined; only the final `"\x7d\x7d"` write
is truncated. -/
def c9CexState : State :=
  { initialized := true
    config := { machine_id := 2, enable_external_api := true, ring_buffer_size := 118,
                aggregation_interval := 1, api_endpoint := "e", api_key := "",
                max_retry_attempts := 0 }
    total_events := 118
    buffer_head := 0
    buffer_tail := 0
    buffer_count := 118
    event_buffer := (List.range' 100 118).map
      (fun i => { timestamp := 3, machine_id := 2, product_id := i })
    last_aggregation := 0
    last_sync := 0
    sync_in_progress := false }

set_option maxRecDepth 100000 in
/-- C9 counterexample: a forwarded non-empty aggregate whose serialization is
1024 characters long.  The sync succeeds and hands the sink a payload, but
that payload is not the claimed JSON object: the 1024-byte `json_buffer`
holds only the first 1023 characters (the closing brace is lost), while the
length handed to the sink is the untruncated 1024 (one byte past the
content, the terminator).  So the claim as stated fails at this input. -/
theorem C9_truncation_counterexample :
    (sync_to_api c9CexState 5 true).ret = .SUCCESS ∧
    (sync_to_api c9CexState 5 true).sent.map Prod.fst ≠
      some (jsonPayloadSpec (aggregate_events c9CexState c9CexState.last_aggregation 5)) ∧
    (sync_to_api c9CexState 5 true).sent.map Prod.snd = some 1024 ∧
    (sync_to_api c9CexState 5 true).sent.map (fun q => q.1.length) = some 1023 ∧
    (jsonPayloadSpec (aggregate_events c9CexState c9CexState.last_aggregation 5)).length
      = 1024 := by
  decide

/-- C9 (amended): whenever a sync attempt hands a payload to the network sink
and the untruncated serialization fits the 1024-byte buffer (shorter than
1024 characters, leaving room for the terminator), the payload handed to the
sink is the JSON object with literal fields machine_id, period_start,
period_end, total_events, and a products object containing exactly the
category identifiers 1..255 with nonzero aggregate count as decimal string
keys, each mapped to its count — the spec-side rendering of the aggregate
over the window [last_aggregation, now] — and the length handed to the sink
is that rendering's length.  When the serialization does not fit, the fixed
buffer truncates the payload (see the counterexample). -/
theorem C9_payload_format (s : State) (now : Nat) (b : Bool) (p : String) (n : Nat)
    (h : (sync_to_api s now b).sent = some (p, n))
    (hfit : (jsonPayload (aggregate_events s s.last_aggregation now)).length < BUFSZ) :
    p = jsonPayloadSpec (aggregate_events s s.last_aggregation now) ∧
    n = (jsonPayloadSpec (aggregate_events s s.last_aggregation now)).length := by
  have hb := buildPayload_fits (aggregate_events s s.last_aggregation now) hfit
  unfold sync_to_api at h
  try simp only at h
  split_ifs at h with h1 h2 h3 h4 h5 <;>
    first
      | (simp at h
         done)
      | (simp only [Option.some.injEq, Prod.mk.injEq] at h
         obtain ⟨hp, hn⟩ := h
         constructor
         · rw [← hp]
           exact (congrArg SnBuf.buf hb).trans (jsonPayload_eq _)
         · rw [← hn]
           exact (congrArg SnBuf.len hb).trans (congrArg String.length (jsonPayload_eq _)))

/-- Witness for C9 (amended) at a concrete sync that sends a fitting
payload. -/
theorem C9_payload_format_witness :
    ((sync_to_api c9State 100 true).sent =
        some ((buildPayload (aggregate_events c9State c9State.last_aggregation 100)).buf,
              (buildPayload (aggregate_events c9State c9State.last_aggregation 100)).len) ∧
     (jsonPayload (aggregate_events c9State c9State.last_aggregation 100)).length < BUFSZ) ∧
    ((buildPayload (aggregate_events c9State c9State.last_aggregation 100)).buf =
        jsonPayloadSpec (aggregate_events c9State c9State.last_aggregation 100) ∧
     (buildPayload (aggregate_events c9State c9State.last_aggregation 100)).len =
        (jsonPayloadSpec (aggregate_events c9State c9State.last_aggregation 100)).length) :=
  ⟨⟨rfl, by decide⟩,
   C9_payload_format c9State 100 true
     (buildPayload (aggregate_events c9State c9State.last_aggregation 100)).buf
     (buildPayload (aggregate_events c9State c9State.last_aggregation 100)).len
     rfl (by decide)⟩

end Consumption
